import Mathlib

/-!
Verification of the BookInventoryQnA repository: a shallow embedding of the
question-to-SQL generation path (main.py), the query executor (main.py), the
few-shot corpus (few_shots.py) and the presentation-layer query history
(app.py), with theorems checking the natural-language specification.

Strings are modelled as lists of characters so that the Python string
operations used by the source (strip, replace, split, substring test)
become structurally recursive Lean functions that the kernel can evaluate.
-/

namespace BookQnA

/-- Text is modelled as a list of characters. -/
abbrev Str := List Char

/-- Coerce a Lean string literal into the character-list model. -/
def chars (s : String) : Str := s.toList

/-- Whether `t` is a leading prefix of `u` (Python startswith). -/
def leadMatch : Str → Str → Bool
  | [], _ => true
  | _ :: _, [] => false
  | a :: as, b :: bs => a == b && leadMatch as bs

/-- Whether `t` occurs as a contiguous substring of `s` (Python `t in s`). -/
def hasSub (t : Str) : Str → Bool
  | [] => leadMatch t []
  | c :: rest => leadMatch t (c :: rest) || hasSub t rest

/-- The ASCII whitespace characters removed by Python str.strip(). -/
def isPySpace (c : Char) : Bool :=
  c == ' ' || c == '\t' || c == '\n' || c == '\r' ||
  c == Char.ofNat 11 || c == Char.ofNat 12

/-- Python str.strip(): remove whitespace from both ends. -/
def pyStrip (s : Str) : Str :=
  ((s.dropWhile isPySpace).reverse.dropWhile isPySpace).reverse

/-- Python s.split over a single newline character: every occurrence splits,
empty pieces are kept, and the empty string yields one empty piece. -/
def splitOnNl : Str → List Str
  | [] => [[]]
  | c :: t =>
    if c = '\n' then [] :: splitOnNl t
    else
      match splitOnNl t with
      | [] => [[c]]
      | h :: r => (c :: h) :: r

/-- Fuelled worker for Python str.replace: scan left to right, replacing each
non-overlapping occurrence of `old` by `new`. The fuel is structural; with
fuel at least the length of the string it never runs out. -/
def repFuel (old new : Str) : Nat → Str → Str
  | 0, _ => []
  | Nat.succ n, s =>
    match s with
    | [] => []
    | c :: t =>
      if !old.isEmpty && leadMatch old s then new ++ repFuel old new n (s.drop old.length)
      else c :: repFuel old new n t

/-- Python s.replace(old, new): replace every non-overlapping occurrence,
scanning left to right. -/
def replaceAll (old new s : Str) : Str := repFuel old new s.length s

/-- Lower-case every character (used to state containment up to case). -/
def lowerStr (s : Str) : Str := s.map Char.toLower

/-! ## Query generator (SQLGenerator.generate_sql, main.py)

The remote chat-completion call is external; it is modelled as an input of
type `Except Str Str`: an error message when the call raises, or the text
content of the model response when it succeeds. Everything after the call
is translated line by line from the source. -/

/-- The token the source scans for, case-sensitively. -/
def SELtok : Str := chars "SELECT"

/-- First label artifact stripped from the response. -/
def labelA : Str := chars "SQL Query:[/INST]"

/-- Second label artifact stripped from the response. -/
def labelB : Str := chars "SQL Query:"

/-- Message prefix added by the outer except clause of generate_sql. -/
def genErrPrefix : Str := chars "Error generating SQL: "

/-- Cleaning pass of generate_sql: strip, remove the two label artifacts,
strip again (main.py lines 108-109). -/
def cleanResponse (content : Str) : Str :=
  pyStrip (replaceAll labelB [] (replaceAll labelA [] (pyStrip content)))

/-- Outcome of generate_sql: a returned query string or a raised error. -/
inductive GenResult where
  | ok (query : Str)
  | err (msg : Str)
deriving DecidableEq

/-- Model of SQLGenerator.generate_sql after the remote call, translated from
main.py lines 96-120. The response lines are filtered for the SELECT token on
the cleaned text; the first hit is stripped and its backslash-underscore
sequences unescaped. Failures re-raise through the outer except clause, which
prefixes the message with "Error generating SQL: ". -/
def generate_sql (response : Except Str Str) : GenResult :=
  match response with
  | .error e => .err (genErrPrefix ++ e)
  | .ok content =>
    let c := cleanResponse content
    if hasSub SELtok c then
      match (splitOnNl c).filter (fun l => hasSub SELtok l) with
      | l :: _ => .ok (replaceAll (chars "\\_") (chars "_") (pyStrip l))
      | [] => .err (genErrPrefix ++ chars "list index out of range")
    else
      .err (genErrPrefix ++ chars "No valid SQL query generated")

/-! ## Query executor (SQLGenerator.execute_sql_query, main.py lines 122-149)

The MySQL driver is external; one call to execute_sql_query is modelled by a
`DbBehavior` value describing what the driver does on that call: either
`mysql.connector.connect` raises, or it yields a connection whose
`is_connected()` answers are recorded for the two places the source calls it
(the body check on line 132 and the finally check on line 147), together with
the outcome of cursor/execute/fetchall. Result-set descriptors of MySQL always
carry at least one column, so a present descriptor is a head column plus a
tail. Cell values pass through untouched and are modelled as text. -/

/-- A cell of a fetched row (opaque to the code; modelled as text). -/
abbrev Cell := Str

/-- One fetched row. -/
abbrev RowT := List Cell

/-- A pandas column label: either a name from the cursor descriptor or a
positional default label. -/
inductive ColLabel where
  | named (s : Str)
  | idx (n : Nat)
deriving DecidableEq

/-- The tabular result: pd.DataFrame as column labels plus rows. -/
structure DataFrame where
  columns : List ColLabel
  rows : List RowT
deriving DecidableEq

/-- Model of pd.DataFrame(results) without explicit columns: pandas infers
positional labels from the first row, and an empty input gives an empty
frame with no columns. -/
def defaultDF (results : List RowT) : DataFrame :=
  ⟨(List.range ((results.head?.map List.length).getD 0)).map ColLabel.idx, results⟩

/-- A Python exception: whether it is a mysql.connector.Error (the class the
except clause catches) and its message text. -/
structure PyExc where
  isDbError : Bool
  msg : Str
deriving DecidableEq

/-- What cursor creation, execute and fetchall do on this call: raise, or
deliver the fetched rows and the cursor descriptor (column names; a present
MySQL descriptor has at least one column, modelled as head and tail). -/
inductive ExecAttempt where
  | raiseExc (e : PyExc)
  | ok (rows : List RowT) (description : Option (Str × List Str))
deriving DecidableEq

/-- The driver connection on one call: the two recorded is_connected()
answers and the execution outcome. -/
structure ConnData where
  isConnBody : Bool
  isConnFinally : Bool
  exec : ExecAttempt
deriving DecidableEq

/-- What mysql.connector.connect does on this call. -/
inductive DbBehavior where
  | connectRaise (e : PyExc)
  | conn (c : ConnData)
deriving DecidableEq

/-- How one call to execute_sql_query completes: a returned DataFrame, the
implicit Python return of None, or a raised exception. -/
inductive CallResult where
  | ret (df : DataFrame)
  | retNone
  | raised (e : PyExc)
deriving DecidableEq

/-- Full observable outcome of a call: its result, whether a connection was
opened (connect returned), and whether connection.close() was reached. -/
structure ExecOutcome where
  result : CallResult
  opened : Bool
  closed : Bool
deriving DecidableEq

/-- Message prefix of the rewrapped database error (main.py line 144). -/
def dbErrorPrefix : Str := chars "Database Error: "

/-- The NameError Python raises in the finally clause when `cursor` was never
bound (connect succeeded but the body is_connected() check was false) while
the finally is_connected() check is true. -/
def cursorNameError : PyExc := ⟨false, chars "name cursor is not defined"⟩

/-- The try body of execute_sql_query (main.py lines 130-141), before the
except clause: connect, check is_connected, run the cursor, and build the
DataFrame, falling through to None when is_connected is false. -/
def bodyResult : DbBehavior → CallResult
  | .connectRaise e => .raised e
  | .conn c =>
    if c.isConnBody then
      match c.exec with
      | .raiseExc e => .raised e
      | .ok results desc =>
        match desc with
        | some d => .ret ⟨(d.1 :: d.2).map ColLabel.named, results⟩
        | none => .ret (defaultDF results)
    else .retNone

/-- The except clause (main.py lines 143-144): a mysql.connector.Error is
caught and re-raised as a generic Exception with the Database Error prefix;
anything else passes through. -/
def exceptWrap : CallResult → CallResult
  | .raised e =>
    if e.isDbError then .raised ⟨false, dbErrorPrefix ++ e.msg⟩ else .raised e
  | r => r

/-- Model of SQLGenerator.execute_sql_query (main.py lines 122-149): body,
except clause, then the finally clause, which closes the cursor and the
connection only when a connection local exists and is_connected() answers
true there; a finally-clause exception replaces the pending outcome. -/
def execute_sql_query (query : Str) (b : DbBehavior) : ExecOutcome :=
  let _ := query
  let pending := exceptWrap (bodyResult b)
  match b with
  | .connectRaise _ => ⟨pending, false, false⟩
  | .conn c =>
    if c.isConnFinally then
      if c.isConnBody then ⟨pending, true, true⟩
      else ⟨.raised cursorNameError, true, false⟩
    else ⟨pending, true, false⟩

/-! ## Few-shot corpus (few_shots.py) and example retrieval -/

/-- One few-shot example: a question paired with its SQL query. -/
structure Example where
  question : Str
  sql : Str
deriving DecidableEq

/-- The fixed corpus, transcribed from few_shots.py. -/
def few_shots : List Example := [
  ⟨chars "How many copies of '1984' do we have in stock?",
   chars "SELECT stock_quantity FROM books WHERE title = '1984';"⟩,
  ⟨chars "What's the total value of all fantasy books?",
   chars "SELECT SUM(price * stock_quantity) AS total_value FROM books WHERE genre = 'Fantasy';"⟩,
  ⟨chars "Show me the total inventory value for books by J.K. Rowling.",
   chars "SELECT SUM(price * stock_quantity) AS total_value FROM books JOIN authors ON books.author_id = authors.author_id WHERE authors.name = 'J.K. Rowling';"⟩,
  ⟨chars "What is the average price of books by genre?",
   chars "SELECT genre, AVG(price) AS average_price FROM books GROUP BY genre;"⟩,
  ⟨chars "List all books with stock quantity less than 5.",
   chars "SELECT title FROM books WHERE stock_quantity < 5;"⟩,
  ⟨chars "How many books are there by each author?",
   chars "SELECT authors.name, COUNT(books.book_id) AS book_count FROM books JOIN authors ON books.author_id = authors.author_id GROUP BY authors.name;"⟩,
  ⟨chars "What are the titles of all mystery books?",
   chars "SELECT title FROM books WHERE genre = 'Mystery';"⟩,
  ⟨chars "Which author has the highest number of books in stock?",
   chars "SELECT authors.name FROM books JOIN authors ON books.author_id = authors.author_id GROUP BY authors.name ORDER BY SUM(books.stock_quantity) DESC LIMIT 1;"⟩,
  ⟨chars "What is the total revenue from all orders?",
   chars "SELECT SUM(total_amount) AS total_revenue FROM orders;"⟩,
  ⟨chars "List all orders placed in the last month.",
   chars "SELECT * FROM orders WHERE order_date >= DATE_SUB(CURDATE(), INTERVAL 1 MONTH);"⟩]

/-- The k configured on the SemanticSimilarityExampleSelector (main.py line 61). -/
def selectorK : Nat := 2

/-- Model of the external SemanticSimilarityExampleSelector over the FAISS
store built from few_shots (main.py lines 45-62): its documented contract is
to return the selectorK corpus entries whose embedding distance to the
question is smallest, closest first. The embedding distance assigned to each
stored example is abstracted as a function into a linear order. -/
def selectExamples (dist : Example → Nat) : List Example :=
  (few_shots.mergeSort (fun a b => dist a ≤ dist b)).take selectorK

/-! ## Prompt assembly (SQLGenerator.create_prompt_template, main.py 67-87)

FewShotPromptTemplate.format renders each selected example through the
example prompt, joins the non-empty pieces prefix, examples, suffix with the
example separator, and then substitutes the question for the {question}
placeholder across the joined template. -/

/-- The example prompt of main.py lines 73-76 applied to an example. -/
def renderExample (ex : Example) : Str :=
  chars "Question: " ++ ex.question ++ chars "\nSQL: " ++ ex.sql

/-- The prefix literal of main.py lines 82-83. -/
def promptPrefix : Str :=
  chars "Convert the following question about book inventory into a SQL query.\n    Table: books (book_id, title, author_id, genre, price, stock_quantity)"

/-- The suffix literal of main.py line 84. -/
def promptSuffix : Str := chars "\nQuestion: {question}\nSQL:"

/-- The example separator of main.py line 86. -/
def exampleSep : Str := chars "\n\n"

/-- The placeholder substituted by the template formatter. -/
def placeholder : Str := chars "{question}"

/-- Join pieces with a separator (Python str.join). -/
def joinSep (sep : Str) : List Str → Str
  | [] => []
  | [x] => x
  | x :: y :: r => x ++ sep ++ joinSep sep (y :: r)

/-- The template before question substitution: prefix, rendered examples and
suffix, with empty pieces dropped, joined by the separator. -/
def promptTemplate (exs : List Example) : Str :=
  joinSep exampleSep
    (([promptPrefix] ++ exs.map renderExample ++ [promptSuffix]).filter
      (fun p => !p.isEmpty))

/-- The part of the template before the separator and suffix. -/
def promptHead (exs : List Example) : Str :=
  joinSep exampleSep
    (([promptPrefix] ++ exs.map renderExample).filter (fun p => !p.isEmpty))

/-- Model of prompt formatting for a question: f-string substitution of the
question for the placeholder across the joined template. -/
def formatPrompt (exs : List Example) (question : Str) : Str :=
  replaceAll placeholder question (promptTemplate exs)

/-! ## Query history (app.py lines 152-166) -/

/-- One step of the session history update (app.py lines 157-158): a truthy
question not already present is appended with its generated SQL. -/
def historyStep (hist : List (Str × Str)) (q s : Str) : List (Str × Str) :=
  if q ≠ [] ∧ q ∉ hist.map Prod.fst then hist ++ [(q, s)] else hist

/-- The session history after a sequence of submissions, starting empty. -/
def runHistory (subs : List (Str × Str)) : List (Str × Str) :=
  subs.foldl (fun h p => historyStep h p.1 p.2) []

/-- The displayed history (app.py line 161): the last five stored entries,
most recent first (Python reversed of hist[-5:]). -/
def displayHistory (hist : List (Str × Str)) : List (Str × Str) :=
  (hist.drop (hist.length - 5)).reverse

/-! ## Lemmas about the string model -/

theorem leadMatch_refl : ∀ t : Str, leadMatch t t = true
  | [] => rfl
  | a :: as => by simp [leadMatch, leadMatch_refl as]

theorem eq_nil_of_leadMatch_nil : ∀ {t : Str}, leadMatch t [] = true → t = []
  | [], _ => rfl
  | _ :: _, h => by simp [leadMatch] at h

theorem hasSub_of_leadMatch {t s : Str} (h : leadMatch t s = true) :
    hasSub t s = true := by
  cases s with
  | nil => simpa [hasSub] using h
  | cons c r => simp [hasSub, h]

theorem hasSub_append_right (t : Str) : ∀ s : Str, hasSub t (s ++ t) = true
  | [] => by
      cases t with
      | nil => rfl
      | cons a as => simp [hasSub, leadMatch_refl]
  | c :: r => by simp [hasSub, hasSub_append_right t r]

theorem mem_repFuel {old new : Str} {a : Char} :
    ∀ (n : Nat) (s : Str), a ∈ repFuel old new n s → a ∈ new ∨ a ∈ s
  | 0, s, h => by simp [repFuel] at h
  | Nat.succ n, [], h => by simp [repFuel] at h
  | Nat.succ n, c :: t, h => by
      rw [repFuel] at h
      by_cases hc : (!old.isEmpty && leadMatch old (c :: t)) = true
      · rw [if_pos hc] at h
        rcases List.mem_append.1 h with h1 | h2
        · exact .inl h1
        · rcases mem_repFuel n _ h2 with h3 | h4
          · exact .inl h3
          · exact .inr (List.drop_subset _ _ h4)
      · rw [if_neg hc] at h
        rcases List.mem_cons.1 h with h1 | h2
        · exact .inr (h1 ▸ List.mem_cons_self _ _)
        · rcases mem_repFuel n t h2 with h3 | h4
          · exact .inl h3
          · exact .inr (List.mem_cons_of_mem _ h4)

theorem mem_replaceAll {old new s : Str} {a : Char} (h : a ∈ replaceAll old new s) :
    a ∈ new ∨ a ∈ s := mem_repFuel _ _ h

theorem pyStrip_subset (s : Str) : pyStrip s ⊆ s := by
  intro a ha
  unfold pyStrip at ha
  rw [List.mem_reverse] at ha
  have h1 := (List.dropWhile_sublist isPySpace).subset ha
  rw [List.mem_reverse] at h1
  exact (List.dropWhile_sublist isPySpace).subset h1

theorem splitOnNl_no_nl : ∀ (s : Str), ∀ l ∈ splitOnNl s, '\n' ∉ l
  | [], l, hl => by
      simp [splitOnNl] at hl
      simp [hl]
  | c :: t, l, hl => by
      rw [splitOnNl] at hl
      by_cases hc : c = '\n'
      · rw [if_pos hc] at hl
        rcases List.mem_cons.1 hl with h | h
        · simp [h]
        · exact splitOnNl_no_nl t l h
      · rw [if_neg hc] at hl
        cases hlt : splitOnNl t with
        | nil =>
          rw [hlt] at hl
          rcases List.mem_cons.1 hl with h | h
          · subst h
            simp [hc]
            exact fun he => hc he.symm
          · simp at h
        | cons h0 r =>
          rw [hlt] at hl
          rcases List.mem_cons.1 hl with h | h
          · subst h
            intro hmem
            rcases List.mem_cons.1 hmem with h1 | h1
            · exact hc h1.symm
            · exact splitOnNl_no_nl t h0 (by rw [hlt]; exact List.mem_cons_self _ _) h1
          · exact splitOnNl_no_nl t l (by rw [hlt]; exact List.mem_cons_of_mem _ h)

theorem splitOnNl_head : ∀ s : Str,
    ∃ r, splitOnNl s = (s.takeWhile (fun c => c != '\n')) :: r
  | [] => ⟨[], rfl⟩
  | c :: t => by
      by_cases hc : c = '\n'
      · subst hc
        exact ⟨splitOnNl t, by simp [splitOnNl]⟩
      · obtain ⟨r, hr⟩ := splitOnNl_head t
        refine ⟨r, ?_⟩
        rw [splitOnNl, if_neg hc, hr]
        simp [List.takeWhile_cons, hc]

theorem splitOnNl_ne_nil (s : Str) : splitOnNl s ≠ [] := by
  obtain ⟨r, hr⟩ := splitOnNl_head s
  simp [hr]

theorem leadMatch_takeWhile {p : Char → Bool} :
    ∀ {t s : Str}, (∀ a ∈ t, p a = true) → leadMatch t s = true →
      leadMatch t (s.takeWhile p) = true
  | [], _, _, _ => rfl
  | a :: as, [], _, h => by simp [leadMatch] at h
  | a :: as, b :: bs, hp, h => by
      rw [leadMatch, Bool.and_eq_true] at h
      obtain ⟨hab, h2⟩ := h
      have hba : a = b := by simpa using hab
      have hpb : p b = true := hba ▸ hp a (List.mem_cons_self _ _)
      rw [List.takeWhile_cons, if_pos hpb, leadMatch, Bool.and_eq_true]
      exact ⟨hab, leadMatch_takeWhile (fun x hx => hp x (List.mem_cons_of_mem _ hx)) h2⟩

theorem hasSub_exists_line {t : Str} (hnl : '\n' ∉ t) :
    ∀ s : Str, hasSub t s = true → ∃ l ∈ splitOnNl s, hasSub t l = true
  | [], h => by
      rw [hasSub] at h
      have ht := eq_nil_of_leadMatch_nil h
      exact ⟨[], by simp [splitOnNl], by simp [ht, hasSub, leadMatch]⟩
  | c :: r, h => by
      rw [hasSub, Bool.or_eq_true] at h
      rcases h with h1 | h2
      · have hp : ∀ a ∈ t, (a != '\n') = true := by
          intro a ha
          simp only [bne_iff_ne, ne_eq]
          exact fun hEq => hnl (hEq ▸ ha)
        have h3 := leadMatch_takeWhile hp h1
        obtain ⟨rr, hrr⟩ := splitOnNl_head (c :: r)
        exact ⟨_, by rw [hrr]; exact List.mem_cons_self _ _, hasSub_of_leadMatch h3⟩
      · obtain ⟨l, hl, hsub⟩ := hasSub_exists_line hnl r h2
        by_cases hc : c = '\n'
        · subst hc
          refine ⟨l, ?_, hsub⟩
          rw [splitOnNl, if_pos rfl]
          exact List.mem_cons_of_mem _ hl
        · cases hsp : splitOnNl r with
          | nil => exact absurd hsp (splitOnNl_ne_nil r)
          | cons h0 rr =>
            rw [hsp] at hl
            rcases List.mem_cons.1 hl with he | he
            · subst he
              refine ⟨c :: l, ?_, ?_⟩
              · rw [splitOnNl, if_neg hc, hsp]
                exact List.mem_cons_self _ _
              · rw [hasSub, Bool.or_eq_true]
                exact Or.inr hsub
            · refine ⟨l, ?_, hsub⟩
              rw [splitOnNl, if_neg hc, hsp]
              exact List.mem_cons_of_mem _ he

/-! ## Claim C1 -/

/-- C1: whenever generate_sql returns a query from a model response, the
returned query is exactly the first line of the label-stripped response that
contains the case-sensitive token SELECT, with surrounding whitespace
stripped and every backslash-underscore sequence replaced by an underscore,
and it contains no newline character, so it is a single line. -/
theorem C1_extraction (content q : Str)
    (h : generate_sql (.ok content) = .ok q) :
    (∃ l, (splitOnNl (cleanResponse content)).find? (fun l => hasSub SELtok l) = some l ∧
       q = replaceAll (chars "\\_") (chars "_") (pyStrip l)) ∧
    '\n' ∉ q := by
  simp only [generate_sql] at h
  split at h
  · split at h
    · next l rest hf =>
        simp only [GenResult.ok.injEq] at h
        have hq : q = replaceAll (chars "\\_") (chars "_") (pyStrip l) := h.symm
        refine ⟨⟨l, ?_, hq⟩, ?_⟩
        · have hh : ((splitOnNl (cleanResponse content)).filter
              (fun l => hasSub SELtok l)).head? = some l := by rw [hf]; rfl
          rwa [List.filter_head?] at hh
        · intro hnl
          rcases mem_replaceAll (hq ▸ hnl) with h1 | h2
          · simp [chars] at h1
          · have hml : l ∈ splitOnNl (cleanResponse content) := by
              have hmf : l ∈ (splitOnNl (cleanResponse content)).filter
                  (fun l => hasSub SELtok l) := by
                rw [hf]
                exact List.mem_cons_self _ _
              exact (List.mem_filter.1 hmf).1
            exact splitOnNl_no_nl _ l hml (pyStrip_subset l h2)
    · next hf => simp at h
  · simp at h

/-- Witness for C1 at a concrete model response. -/
theorem C1_extraction_witness :
    (∃ l, (splitOnNl (cleanResponse (chars "SQL Query: SELECT \\_a FROM books\nmore"))).find?
         (fun l => hasSub SELtok l) = some l ∧
       chars "SELECT _a FROM books" = replaceAll (chars "\\_") (chars "_") (pyStrip l)) ∧
    '\n' ∉ chars "SELECT _a FROM books" :=
  C1_extraction (chars "SQL Query: SELECT \\_a FROM books\nmore")
    (chars "SELECT _a FROM books") (by decide)

/-! ## Claim C3 -/

/-- C3 counterexample: in this model response no line contains the token
SELECT, yet generate_sql does not raise: label stripping glues the fragments
SEL and ECT into a SELECT token, and a query is returned. -/
theorem C3_counterexample :
    ((splitOnNl (chars "SELSQL Query:ECT 1")).all (fun l => !hasSub SELtok l)) = true ∧
    generate_sql (.ok (chars "SELSQL Query:ECT 1")) = .ok (chars "SELECT 1") := by
  exact ⟨by decide, by decide⟩

/-- C3 amended: generate_sql fails exactly when extraction (tested on the
label-stripped response, not on the raw response lines) or the remote call
fails. When the label-stripped response does not contain SELECT, it raises
"Error generating SQL: No valid SQL query generated", which contains the text
"no valid SQL query" up to letter case; when it does contain SELECT a query
is returned. When the remote call raises, the raised error surfaces the
underlying message. The call is a plain function of its input: no retry. -/
theorem C3_failure_modes (content e : Str) :
    (hasSub SELtok (cleanResponse content) = false →
       generate_sql (.ok content) =
         .err (genErrPrefix ++ chars "No valid SQL query generated") ∧
       hasSub (lowerStr (chars "no valid SQL query"))
         (lowerStr (genErrPrefix ++ chars "No valid SQL query generated")) = true) ∧
    (hasSub SELtok (cleanResponse content) = true →
       ∃ q, generate_sql (.ok content) = .ok q) ∧
    (generate_sql (.error e) = .err (genErrPrefix ++ e) ∧
       hasSub e (genErrPrefix ++ e) = true) := by
  refine ⟨?_, ?_, rfl, hasSub_append_right e genErrPrefix⟩
  · intro hno
    refine ⟨?_, by decide⟩
    simp only [generate_sql]
    rw [if_neg]
    simp [hno]
  · intro hyes
    have hnl : '\n' ∉ SELtok := by decide
    obtain ⟨l, hl, hsub⟩ := hasSub_exists_line hnl (cleanResponse content) hyes
    have hne : (splitOnNl (cleanResponse content)).filter
        (fun l => hasSub SELtok l) ≠ [] := by
      intro hemp
      have : l ∈ (splitOnNl (cleanResponse content)).filter
          (fun l => hasSub SELtok l) := List.mem_filter.2 ⟨hl, hsub⟩
      rw [hemp] at this
      simp at this
    simp only [generate_sql]
    rw [if_pos hyes]
    cases hf : (splitOnNl (cleanResponse content)).filter (fun l => hasSub SELtok l) with
    | nil => exact absurd hf hne
    | cons l0 rest => exact ⟨_, rfl⟩

/-- Witness for C3 at concrete inputs: a response with no SELECT anywhere,
and a failing remote call. -/
theorem C3_failure_modes_witness :
    generate_sql (.ok (chars "I cannot answer that")) =
      .err (genErrPrefix ++ chars "No valid SQL query generated") ∧
    generate_sql (.error (chars "rate limit exceeded")) =
      .err (genErrPrefix ++ chars "rate limit exceeded") :=
  ⟨((C3_failure_modes (chars "I cannot answer that") (chars "rate limit exceeded")).1
      (by decide)).1,
   ((C3_failure_modes (chars "I cannot answer that") (chars "rate limit exceeded")).2.2).1⟩

/-! ## Claims C2, C4, C5, C6, C10 (the executor) -/

/-- C2 counterexample: when connect succeeds but the fresh connection reports
not connected at both is_connected() checks, execute_sql_query completes with
no result at all (the Python fall-through return of None), which is neither a
tabular result nor a raised error. -/
theorem C2_counterexample :
    (execute_sql_query (chars "SELECT 1")
      (.conn ⟨false, false, .ok [] none⟩)).result = .retNone := rfl

/-- C2 amended: a call to execute_sql_query returns a tabular result or
raises, except in exactly one family of driver behaviors: connect succeeds
but is_connected() answers false at the body check and at the cleanup check,
and then the call returns no result at all (None). -/
theorem C2_outcomes (query : Str) (b : DbBehavior) :
    (execute_sql_query query b).result = .retNone ↔
      ∃ c, b = .conn c ∧ c.isConnBody = false ∧ c.isConnFinally = false := by
  cases b with
  | connectRaise e =>
    cases he : e.isDbError <;>
      simp [execute_sql_query, bodyResult, exceptWrap, he]
  | conn c =>
    obtain ⟨hb, hf, hx⟩ := c
    cases hb <;> cases hf <;>
      rcases hx with e | ⟨rows, desc⟩ <;>
      first
        | (cases he : e.isDbError <;>
            simp [execute_sql_query, bodyResult, exceptWrap, he])
        | (cases desc <;>
            simp [execute_sql_query, bodyResult, exceptWrap])

/-- C4: for a query execution that reaches the cursor, a present result
descriptor (MySQL descriptors carry at least one column) yields a tabular
result labelled with exactly the descriptor column names and holding all
fetched rows; an absent descriptor (and then fetchall yields no rows) yields
the empty tabular structure with no column headers. -/
theorem C4_result_shape (query : Str) (c : ConnData) (rows : List RowT)
    (desc : Option (Str × List Str))
    (hb : c.isConnBody = true) (hx : c.exec = .ok rows desc) :
    (∀ d, desc = some d →
       (execute_sql_query query (.conn c)).result =
         .ret ⟨(d.1 :: d.2).map ColLabel.named, rows⟩) ∧
    (desc = none → rows = [] →
       (execute_sql_query query (.conn c)).result = .ret ⟨[], []⟩) := by
  constructor
  · rintro d rfl
    cases hf : c.isConnFinally <;>
      simp [execute_sql_query, bodyResult, exceptWrap, hb, hx, hf]
  · rintro rfl rfl
    cases hf : c.isConnFinally <;>
      simp [execute_sql_query, bodyResult, exceptWrap, hb, hx, hf, defaultDF]

/-- Witness for C4: a one-column one-row result set, and a descriptor-free
statement. -/
theorem C4_result_shape_witness :
    (execute_sql_query (chars "SELECT title FROM books")
       (.conn ⟨true, true, .ok [[chars "Dune"]] (some (chars "title", []))⟩)).result =
      .ret ⟨[ColLabel.named (chars "title")], [[chars "Dune"]]⟩ ∧
    (execute_sql_query (chars "SET @x = 1")
       (.conn ⟨true, true, .ok [] none⟩)).result = .ret ⟨[], []⟩ :=
  ⟨by
    simpa using (C4_result_shape (chars "SELECT title FROM books")
      ⟨true, true, .ok [[chars "Dune"]] (some (chars "title", []))⟩
      [[chars "Dune"]] (some (chars "title", [])) rfl rfl).1 (chars "title", []) rfl,
   (C4_result_shape (chars "SET @x = 1") ⟨true, true, .ok [] none⟩
      [] none rfl rfl).2 rfl rfl⟩

/-- C5 counterexample: connect succeeds (a connection is opened) and the call
returns normally, yet connection.close() is never reached, because the
cleanup is guarded by is_connected(), which answers false here. -/
theorem C5_counterexample :
    (execute_sql_query (chars "SELECT 1")
       (.conn ⟨true, false, .ok [] (some (chars "title", []))⟩)).opened = true ∧
    (execute_sql_query (chars "SELECT 1")
       (.conn ⟨true, false, .ok [] (some (chars "title", []))⟩)).closed = false :=
  ⟨rfl, rfl⟩

/-- C5 amended: the release is conditional, not unconditional: close() is
reached exactly when a connection was opened and is_connected() answers true
at both the body check and the finally check; when the driver reports the
connection dead at cleanup, close() is skipped on that exit path. -/
theorem C5_close_conditions (query : Str) (b : DbBehavior) :
    (execute_sql_query query b).closed = true ↔
      ∃ c, b = .conn c ∧ c.isConnBody = true ∧ c.isConnFinally = true := by
  cases b with
  | connectRaise e => simp [execute_sql_query]
  | conn c =>
    obtain ⟨hb, hf, hx⟩ := c
    cases hb <;> cases hf <;> simp [execute_sql_query]

/-- C6: every mysql.connector.Error raised while connecting or executing is
caught and re-raised as a generic (non-driver) exception whose message is the
Database Error prefix followed by the original message; the call therefore
raises and returns nothing (the outcome is a single value, so a full result
and an error are mutually exclusive by construction, and the model performs
no retry). -/
theorem C6_db_error_wrapping (query : Str) (e : PyExc) (c : ConnData)
    (hdb : e.isDbError = true) :
    (execute_sql_query query (.connectRaise e)).result =
      .raised ⟨false, dbErrorPrefix ++ e.msg⟩ ∧
    (c.isConnBody = true → c.exec = .raiseExc e →
      (execute_sql_query query (.conn c)).result =
        .raised ⟨false, dbErrorPrefix ++ e.msg⟩) := by
  constructor
  · simp [execute_sql_query, bodyResult, exceptWrap, hdb]
  · intro hb hx
    cases hf : c.isConnFinally <;>
      simp [execute_sql_query, bodyResult, exceptWrap, hb, hx, hf, hdb]

/-- Witness for C6: a connect-time failure and an execute-time failure. -/
theorem C6_db_error_wrapping_witness :
    (execute_sql_query (chars "SELECT 1")
       (.connectRaise ⟨true, chars "Access denied"⟩)).result =
      .raised ⟨false, dbErrorPrefix ++ chars "Access denied"⟩ ∧
    (execute_sql_query (chars "SELECT * FORM books")
       (.conn ⟨true, true, .raiseExc ⟨true, chars "You have an error in your SQL syntax"⟩⟩)).result =
      .raised ⟨false, dbErrorPrefix ++ chars "You have an error in your SQL syntax"⟩ :=
  ⟨(C6_db_error_wrapping (chars "SELECT 1") ⟨true, chars "Access denied"⟩
      ⟨true, true, .raiseExc ⟨true, chars "Access denied"⟩⟩ rfl).1,
   (C6_db_error_wrapping (chars "SELECT * FORM books")
      ⟨true, chars "You have an error in your SQL syntax"⟩
      ⟨true, true, .raiseExc ⟨true, chars "You have an error in your SQL syntax"⟩⟩ rfl).2
      rfl rfl⟩

/-- C10: only mysql.connector.Error is caught and rewrapped; an exception
that is not a driver error, raised at connect time or during execution,
propagates to the caller as exactly the same exception, with no Database
Error prefix added to its message. -/
theorem C10_non_db_error_passthrough (query : Str) (e : PyExc) (c : ConnData)
    (hnd : e.isDbError = false) :
    (execute_sql_query query (.connectRaise e)).result = .raised e ∧
    (c.isConnBody = true → c.exec = .raiseExc e →
      (execute_sql_query query (.conn c)).result = .raised e) := by
  constructor
  · simp [execute_sql_query, bodyResult, exceptWrap, hnd]
  · intro hb hx
    cases hf : c.isConnFinally <;>
      simp [execute_sql_query, bodyResult, exceptWrap, hb, hx, hf, hnd]

/-- Witness for C10: a non-driver exception raised during execution comes out
unchanged. -/
theorem C10_non_db_error_passthrough_witness :
    (execute_sql_query (chars "SELECT 1")
       (.connectRaise ⟨false, chars "KeyboardInterrupt"⟩)).result =
      .raised ⟨false, chars "KeyboardInterrupt"⟩ ∧
    (execute_sql_query (chars "SELECT 1")
       (.conn ⟨true, true, .raiseExc ⟨false, chars "MemoryError"⟩⟩)).result =
      .raised ⟨false, chars "MemoryError"⟩ :=
  ⟨(C10_non_db_error_passthrough (chars "SELECT 1") ⟨false, chars "KeyboardInterrupt"⟩
      ⟨true, true, .raiseExc ⟨false, chars "KeyboardInterrupt"⟩⟩ rfl).1,
   (C10_non_db_error_passthrough (chars "SELECT 1") ⟨false, chars "MemoryError"⟩
      ⟨true, true, .raiseExc ⟨false, chars "MemoryError"⟩⟩ rfl).2 rfl rfl⟩

/-! ## Claim C7 (example retrieval) -/

/-- C7: for every embedding distance assignment, the example selector returns
exactly selectorK = 2 examples (the corpus has 10, which is at least 2), each
drawn from the fixed few_shots corpus, ordered closest first. -/
theorem C7_selector (dist : Example → Nat) :
    (selectExamples dist).length = 2 ∧
    (∀ e ∈ selectExamples dist, e ∈ few_shots) ∧
    (selectExamples dist).Pairwise (fun a b => dist a ≤ dist b) := by
  refine ⟨?_, ?_, ?_⟩
  · rw [selectExamples, List.length_take, List.length_mergeSort]
    rfl
  · intro e he
    have hmem : e ∈ few_shots.mergeSort (fun a b => dist a ≤ dist b) :=
      (List.take_sublist _ _).subset he
    exact List.mem_mergeSort.1 hmem
  · have hs := @List.sorted_mergeSort Example (fun a b => decide (dist a ≤ dist b))
      (fun a b c hab hbc => by
        simp only [decide_eq_true_eq] at *
        exact le_trans hab hbc)
      (fun a b => by
        simp only [Bool.or_eq_true, decide_eq_true_eq]
        exact Nat.le_total _ _)
      few_shots
    have ht := List.Pairwise.sublist (List.take_sublist selectorK _) hs
    exact ht.imp (fun h => of_decide_eq_true h)

/-! ## Lemmas for prompt assembly -/

theorem leadMatch_take : ∀ t u : Str, leadMatch t u = true → u.take t.length = t
  | [], u, _ => by simp
  | a :: as, [], h => by simp [leadMatch] at h
  | a :: as, b :: bs, h => by
      rw [leadMatch, Bool.and_eq_true] at h
      obtain ⟨hab, h2⟩ := h
      have hba : a = b := by simpa using hab
      simp [List.take_succ_cons, leadMatch_take as bs h2, hba]

theorem leadMatch_append_left : ∀ t u : Str, (v : Str) → t.length ≤ u.length →
    leadMatch t (u ++ v) = leadMatch t u
  | [], u, v, _ => by cases u <;> rfl
  | a :: as, [], v, h => by simp at h
  | a :: as, b :: bs, v, h => by
      rw [List.cons_append, leadMatch, leadMatch,
        leadMatch_append_left as bs v (by simpa using h)]

theorem hasSub_of_drop_leadMatch {t : Str} :
    ∀ (i : Nat) (s : Str), leadMatch t (s.drop i) = true → hasSub t s = true
  | 0, s, h => hasSub_of_leadMatch h
  | Nat.succ i, [], h => by
      simp only [List.drop_nil] at h
      cases t with
      | nil => rfl
      | cons a as => simp [leadMatch] at h
  | Nat.succ i, c :: r, h => by
      rw [List.drop_succ_cons] at h
      rw [hasSub, Bool.or_eq_true]
      exact Or.inr (hasSub_of_drop_leadMatch i r h)

theorem repFuel_split (old new B : Str) :
    ∀ (A : Str) (n : Nat), (A ++ B).length ≤ n →
      (∀ i, i < A.length → leadMatch old ((A ++ B).drop i) = false) →
      repFuel old new n (A ++ B) = A ++ repFuel old new (n - A.length) B
  | [], n, _, _ => by simp
  | c :: t, n, hn, hno => by
      cases n with
      | zero => simp at hn
      | succ m =>
        rw [List.cons_append, repFuel]
        have h0 : leadMatch old (c :: (t ++ B)) = false := by
          have := hno 0 (by simp)
          simpa using this
        rw [if_neg (by simp [h0])]
        have hn2 : (t ++ B).length ≤ m := by
          simp only [List.length_append] at hn ⊢
          simp only [List.length_cons] at hn
          omega
        have hno2 : ∀ i, i < t.length → leadMatch old ((t ++ B).drop i) = false := by
          intro i hi
          have := hno (i + 1) (by simp; omega)
          simpa using this
        rw [repFuel_split old new B t m hn2 hno2]
        simp only [List.length_cons, List.cons_append, Nat.succ_sub_succ]

theorem joinSep_snoc (sep y : Str) : ∀ xs : List Str, xs ≠ [] →
    joinSep sep (xs ++ [y]) = joinSep sep xs ++ (sep ++ y)
  | [], h => absurd rfl h
  | [x], _ => by simp [joinSep]
  | x :: x2 :: r, _ => by
      have ih := joinSep_snoc sep y (x2 :: r) (by simp)
      simp only [List.cons_append] at ih ⊢
      rw [joinSep, ih]
      conv_rhs => rw [joinSep]
      simp [List.append_assoc]

theorem piecesTail_filter (exs : List Example) :
    ∀ a ∈ [promptPrefix] ++ exs.map renderExample, (!a.isEmpty) = true := by
  intro a ha
  rcases List.mem_append.1 ha with h | h
  · rw [List.mem_singleton] at h
    subst h
    rfl
  · obtain ⟨ex, _, rfl⟩ := List.mem_map.1 h
    rfl

theorem promptHead_eq (exs : List Example) :
    promptHead exs = joinSep exampleSep ([promptPrefix] ++ exs.map renderExample) := by
  rw [promptHead, List.filter_eq_self.2 (piecesTail_filter exs)]

theorem promptTemplate_eq (exs : List Example) :
    promptTemplate exs = promptHead exs ++ (exampleSep ++ promptSuffix) := by
  rw [promptTemplate, promptHead_eq]
  have hfil : ([promptPrefix] ++ exs.map renderExample ++ [promptSuffix]).filter
      (fun p => !p.isEmpty) = [promptPrefix] ++ exs.map renderExample ++ [promptSuffix] := by
    rw [List.filter_eq_self]
    intro a ha
    rcases List.mem_append.1 ha with h | h
    · exact piecesTail_filter exs a h
    · rw [List.mem_singleton] at h
      subst h
      rfl
  rw [hfil]
  exact joinSep_snoc exampleSep promptSuffix _ (by simp)

theorem prompt_noHit (exs : List Example)
    (hA : hasSub placeholder (promptHead exs) = false) :
    ∀ i, i < (promptHead exs ++ chars "\n\n\nQuestion: ").length →
      leadMatch placeholder
        (((promptHead exs ++ chars "\n\n\nQuestion: ") ++
          (placeholder ++ chars "\nSQL:")).drop i) = false := by
  intro i hi
  cases hbm : leadMatch placeholder
      (((promptHead exs ++ chars "\n\n\nQuestion: ") ++
        (placeholder ++ chars "\nSQL:")).drop i) with
  | false => rfl
  | true =>
    exfalso
    rw [List.append_assoc] at hbm
    rcases lt_or_ge i (promptHead exs).length with hlt | hge
    · rcases le_or_lt (i + 10) (promptHead exs).length with hfit | hspan
      · rw [List.drop_append_of_le_length (le_of_lt hlt)] at hbm
        have h10 : placeholder.length ≤ ((promptHead exs).drop i).length := by
          rw [List.length_drop]
          have hp : placeholder.length = 10 := rfl
          omega
        rw [leadMatch_append_left _ _ _ h10] at hbm
        have hhit := hasSub_of_drop_leadMatch i _ hbm
        rw [hA] at hhit
        exact absurd hhit (by decide)
      · have htk := leadMatch_take _ _ hbm
        rw [List.drop_append_of_le_length (le_of_lt hlt),
          List.take_append_eq_append_take] at htk
        have hnl : '\n' ∈ placeholder := by
          rw [← htk]
          apply List.mem_append_right
          have hpos : ∃ m, placeholder.length - ((promptHead exs).drop i).length
              = m + 1 := by
            rw [List.length_drop]
            have hp : placeholder.length = 10 := rfl
            exact ⟨placeholder.length - ((promptHead exs).length - i) - 1, by omega⟩
          obtain ⟨m, hm⟩ := hpos
          rw [hm]
          have hcons : chars "\n\n\nQuestion: " ++ (placeholder ++ chars "\nSQL:") =
              '\n' :: (chars "\n\nQuestion: " ++ (placeholder ++ chars "\nSQL:")) := rfl
          rw [hcons, List.take_succ_cons]
          exact List.mem_cons_self _ _
        exact absurd hnl (by decide)
    · obtain ⟨j, rfl⟩ : ∃ j, i = (promptHead exs).length + j :=
        ⟨i - (promptHead exs).length, by omega⟩
      rw [List.drop_append] at hbm
      have hj : j < 13 := by
        rw [List.length_append] at hi
        have h13 : (chars "\n\n\nQuestion: ").length = 13 := rfl
        omega
      have hdec : ∀ j, j < 13 → leadMatch placeholder
          ((chars "\n\n\nQuestion: " ++ (placeholder ++ chars "\nSQL:")).drop j)
          = false := by decide
      rw [hdec j hj] at hbm
      exact absurd hbm (by decide)

/-! ## Claim C8 -/

/-- C8: prompt assembly is a pure function of the selected examples and the
question, rendered as a fixed byte sequence: the joined prefix and rendered
examples, the separator and suffix literals, and the question interpolated
verbatim between them with no escaping, so equal inputs give byte-identical
prompts and the question text appears as-is. The hypothesis says the literal
placeholder does not already occur inside the joined prefix-and-examples
head, which holds for the actual corpus (its texts contain no brace). -/
theorem C8_prompt_verbatim (exs : List Example) (q : Str)
    (hA : hasSub placeholder (promptHead exs) = false) :
    formatPrompt exs q =
      (promptHead exs ++ chars "\n\n\nQuestion: ") ++ (q ++ chars "\nSQL:") := by
  have hsfx : exampleSep ++ promptSuffix =
      chars "\n\n\nQuestion: " ++ (placeholder ++ chars "\nSQL:") := rfl
  have htemp : promptTemplate exs =
      (promptHead exs ++ chars "\n\n\nQuestion: ") ++ (placeholder ++ chars "\nSQL:") := by
    rw [promptTemplate_eq, hsfx, ← List.append_assoc]
  rw [formatPrompt, htemp, replaceAll,
    repFuel_split placeholder q (placeholder ++ chars "\nSQL:")
      (promptHead exs ++ chars "\n\n\nQuestion: ") _ le_rfl (prompt_noHit exs hA)]
  congr 1
  have hlen : ((promptHead exs ++ chars "\n\n\nQuestion: ") ++
      (placeholder ++ chars "\nSQL:")).length -
      (promptHead exs ++ chars "\n\n\nQuestion: ").length = 15 := by
    rw [List.length_append, Nat.add_sub_cancel_left]
    rfl
  rw [hlen]
  rfl

/-- Witness for C8 at a concrete example list and question. -/
theorem C8_prompt_verbatim_witness :
    hasSub placeholder
      (promptHead [⟨chars "How many books?", chars "SELECT COUNT(*) FROM books;"⟩])
      = false ∧
    formatPrompt [⟨chars "How many books?", chars "SELECT COUNT(*) FROM books;"⟩]
      (chars "List all genres") =
      (promptHead [⟨chars "How many books?", chars "SELECT COUNT(*) FROM books;"⟩] ++
        chars "\n\n\nQuestion: ") ++ (chars "List all genres" ++ chars "\nSQL:") :=
  ⟨by decide, C8_prompt_verbatim _ _ (by decide)⟩

/-! ## Lemmas and claim C9 (query history) -/

theorem historyStep_mem (hist : List (Str × Str)) (q s : Str)
    (h : q ∈ hist.map Prod.fst) : historyStep hist q s = hist := by
  rw [historyStep, if_neg]
  simp [h]

theorem foldl_historyStep_all_new :
    ∀ (subs hist : List (Str × Str)),
      (subs.map Prod.fst).Nodup →
      (∀ p ∈ subs, p.1 ≠ []) →
      (∀ p ∈ subs, p.1 ∉ hist.map Prod.fst) →
      subs.foldl (fun h p => historyStep h p.1 p.2) hist = hist ++ subs
  | [], hist, _, _, _ => by simp
  | p :: rest, hist, hnd, hne, hdis => by
      rw [List.foldl_cons]
      have hstep : historyStep hist p.1 p.2 = hist ++ [p] := by
        rw [historyStep, if_pos]
        exact ⟨hne p (List.mem_cons_self _ _), hdis p (List.mem_cons_self _ _)⟩
      rw [hstep]
      rw [List.map_cons, List.nodup_cons] at hnd
      have hrec := foldl_historyStep_all_new rest (hist ++ [p]) hnd.2
        (fun r hr => hne r (List.mem_cons_of_mem _ hr))
        (by
          intro r hr
          rw [List.map_append, List.mem_append]
          rintro (hmem | hmem)
          · exact hdis r (List.mem_cons_of_mem _ hr) hmem
          · simp only [List.map_cons, List.map_nil, List.mem_singleton] at hmem
            exact hnd.1 (hmem ▸ List.mem_map_of_mem Prod.fst hr))
      rw [hrec, List.append_assoc]
      rfl

theorem displayHistory_take (hist : List (Str × Str)) :
    displayHistory hist = hist.reverse.take 5 := by
  rw [displayHistory, List.reverse_drop]
  rcases le_or_lt 5 hist.length with h | h
  · congr 1
    omega
  · have h1 : hist.length - (hist.length - 5) = hist.length := by omega
    rw [h1, ← List.length_reverse hist, List.take_length,
      List.take_of_length_le (by rw [List.length_reverse]; omega)]

/-- C9: after a session of more than 5 distinct truthy questions, the
displayed query history shows exactly the last 5 of them, most recent first,
each paired with its generated SQL; a question already present in the stored
history is never appended again; and the display never exceeds 5 entries. -/
theorem C9_history (subs : List (Str × Str))
    (hnd : (subs.map Prod.fst).Nodup)
    (hne : ∀ p ∈ subs, p.1 ≠ [])
    (hlen : 5 < subs.length) :
    displayHistory (runHistory subs) = subs.reverse.take 5 ∧
    (displayHistory (runHistory subs)).length = 5 ∧
    (∀ hist q s, q ∈ hist.map Prod.fst → historyStep hist q s = hist) ∧
    (∀ hist : List (Str × Str), (displayHistory hist).length ≤ 5) := by
  have hrun : runHistory subs = subs := by
    rw [runHistory]
    have hfold := foldl_historyStep_all_new subs [] hnd hne (by simp)
    simpa using hfold
  refine ⟨?_, ?_, ?_, ?_⟩
  · rw [hrun, displayHistory_take]
  · rw [hrun, displayHistory_take, List.length_take, List.length_reverse]
    omega
  · exact fun hist q s h => historyStep_mem hist q s h
  · intro hist
    rw [displayHistory_take, List.length_take]
    omega

/-- Witness for C9: six distinct questions; the display shows the last five,
newest first. -/
theorem C9_history_witness :
    displayHistory (runHistory
      [(chars "q1", chars "s1"), (chars "q2", chars "s2"), (chars "q3", chars "s3"),
       (chars "q4", chars "s4"), (chars "q5", chars "s5"), (chars "q6", chars "s6")]) =
      ([(chars "q1", chars "s1"), (chars "q2", chars "s2"), (chars "q3", chars "s3"),
        (chars "q4", chars "s4"), (chars "q5", chars "s5"),
        (chars "q6", chars "s6")].reverse).take 5 :=
  (C9_history
    [(chars "q1", chars "s1"), (chars "q2", chars "s2"), (chars "q3", chars "s3"),
     (chars "q4", chars "s4"), (chars "q5", chars "s5"), (chars "q6", chars "s6")]
    (by decide) (by decide) (by decide)).1

end BookQnA

